import Mathlib

/-!
Verification of the py-cozi-client mapping layer and demonstration scripts.

The repository ships the package root (`__init__.py`) and two demonstration
scripts (`test_calendar_operations.py`, `test_list_operations.py`); the
library modules they import (`models`, `exceptions`, `cozi_client`) are not
part of the checked-out sources, so those parts are modelled from the
specification (each such definition is marked in its doc comment).
Definitions taken from the checked-in Python files follow the Python
semantics of those files.
-/

/-- Wire-format JSON values, as handled by the client's mapping layer. -/
inductive Json where
  | str (s : String)
  | num (n : Int)
  | bool (b : Bool)
  | null
  | arr (xs : List Json)
  | obj (fields : List (String × Json))

/-- Field lookup in a JSON object; `none` on non-objects and absent keys. -/
def jLookup (j : Json) (k : String) : Option Json :=
  match j with
  | .obj fields => fields.lookup k
  | _ => none

/-- Modelled from the spec: the error taxonomy of `exceptions.py` (absent from
src/), per spec section 7: AuthenticationError, ValidationError (carrying the
offending field), APIError (carrying status and body), NetworkError
(carrying the transport failure reason). -/
inductive CoziError where
  | authenticationError
  | validationError (field : String)
  | apiError (status : Nat) (body : String)
  | networkError (reason : String)
deriving DecidableEq, Repr

/-- A calendar date, as carried by an appointment's required `day` field. -/
structure CoziDate where
  year : Nat
  month : Nat
  day : Nat
deriving DecidableEq, Repr

/-- A time of day, as parsed from `"HH:MM[:SS]"` wire strings. -/
structure CoziTime where
  hour : Nat
  minute : Nat
  second : Nat
deriving DecidableEq, Repr

/-- Modelled from the spec: the CoziAppointment entity of `models.py` (absent
from src/), per spec section 3: nullable id, subject, start day, nullable
start/end time of day, date span, ordered attendee identifiers, optional
location and notes. -/
structure CoziAppointment where
  id : Option String
  subject : String
  start_day : CoziDate
  start_time : Option CoziTime
  end_time : Option CoziTime
  date_span : Int
  attendees : List String
  location : Option String
  notes : Option String
deriving DecidableEq, Repr

/-- Split a character list at every occurrence of the separator, the
semantics of Python's `str.split` with a one-character separator. -/
def splitChar (sep : Char) : List Char → List (List Char)
  | [] => [[]]
  | c :: cs =>
    if c = sep then [] :: splitChar sep cs
    else
      match splitChar sep cs with
      | [] => [[c]]
      | ys :: rest => (c :: ys) :: rest

/-- Split a string at every occurrence of the separator character. -/
def splitOnChar (sep : Char) (s : String) : List String :=
  (splitChar sep s.toList).map (fun cs => String.mk cs)

/-- Accumulate decimal digits; any non-digit character fails, the
semantics of Python's `int` on the digit strings of wire dates and
times. -/
def digitsToNat? (acc : Nat) : List Char → Option Nat
  | [] => some acc
  | c :: cs =>
    if c.isDigit then digitsToNat? (acc * 10 + (c.toNat - 48)) cs
    else none

/-- Parse a non-empty all-digit string as a natural number. -/
def strToNat? (s : String) : Option Nat :=
  match s.toList with
  | [] => none
  | cs => digitsToNat? 0 cs

/-- Modelled from the spec: parsing of the appointment `day` field
("YYYY-MM-DD", the ISO date format the demonstration script reads back with
`datetime.fromisoformat`); a malformed date fails with a validation error
naming the `day` field. -/
def parseDate (s : String) : Except CoziError CoziDate :=
  match splitOnChar '-' s with
  | [y, m, d] =>
    match strToNat? y, strToNat? m, strToNat? d with
    | some yn, some mn, some dn =>
      if 1 ≤ mn ∧ mn ≤ 12 ∧ 1 ≤ dn ∧ dn ≤ 31 then .ok ⟨yn, mn, dn⟩
      else .error (.validationError "day")
    | _, _, _ => .error (.validationError "day")
  | _ => .error (.validationError "day")

/-- Modelled from the spec: time-of-day fields are parsed from `"HH:MM[:SS]"`
strings; malformed time strings fail with a validation error identifying the
field (spec section 4.1). -/
def parseTime (field : String) (s : String) : Except CoziError CoziTime :=
  match splitOnChar ':' s with
  | [h, m] =>
    match strToNat? h, strToNat? m with
    | some hn, some mn =>
      if hn < 24 ∧ mn < 60 then .ok ⟨hn, mn, 0⟩
      else .error (.validationError field)
    | _, _ => .error (.validationError field)
  | [h, m, sec] =>
    match strToNat? h, strToNat? m, strToNat? sec with
    | some hn, some mn, some sn =>
      if hn < 24 ∧ mn < 60 ∧ sn < 60 then .ok ⟨hn, mn, sn⟩
      else .error (.validationError field)
    | _, _, _ => .error (.validationError field)
  | _ => .error (.validationError field)

/-- The required appointment wire fields (spec sections 4.1 and 8). -/
def requiredFields : List String := ["id", "day", "description"]

/-- The first required field missing from the JSON object, if any. -/
def firstMissing (j : Json) : Option String :=
  requiredFields.find? (fun f => (jLookup j f).isNone)

/-- Read a required field as a string; a present non-string value is a
malformed required response field (spec section 7) and fails with a
validation error naming the field. -/
def getReqStr (j : Json) (f : String) : Except CoziError String :=
  match jLookup j f with
  | some (.str s) => .ok s
  | _ => .error (.validationError f)

/-- Read an optional string field tolerantly, defaulting to the empty
string when absent or of another shape. -/
def jStrD (j : Json) (f : String) : String :=
  match jLookup j f with
  | some (.str s) => s
  | _ => ""

/-- Read an optional array-of-strings field tolerantly: absent or
non-array values default to the empty list and non-string elements are
dropped, preserving the order in which the server lists the elements. -/
def jStrList (j : Json) (f : String) : List String :=
  match jLookup j f with
  | some (.arr xs) => xs.filterMap (fun x => match x with | .str s => some s | _ => none)
  | _ => []

/-- The fields of the nested `itemDetails` object; empty when absent or not
an object (tolerant parse). -/
def details (j : Json) : List (String × Json) :=
  match jLookup j "itemDetails" with
  | some (.obj fields) => fields
  | _ => []

/-- Read an optional string field of `itemDetails`; absent defaults to
absent (spec section 4.1). -/
def detailStr (j : Json) (f : String) : Option String :=
  match (details j).lookup f with
  | some (.str s) => some s
  | _ => none

/-- Read `itemDetails.dateSpan`; defaults to 0 when absent (spec
section 4.1). -/
def detailSpan (j : Json) : Int :=
  match (details j).lookup "dateSpan" with
  | some (.num n) => n
  | _ => 0

/-- Read an optional time-of-day field: absent or null yields no time,
a string is parsed as `"HH:MM[:SS]"`, any other shape is malformed. -/
def getOptTime (j : Json) (f : String) : Except CoziError (Option CoziTime) :=
  match jLookup j f with
  | none => .ok none
  | some .null => .ok none
  | some (.str s) =>
    match parseTime f s with
    | .ok t => .ok (some t)
    | .error e => .error e
  | some _ => .error (.validationError f)

/-- Modelled from the spec: `CoziAppointment.from_api_format` of `models.py`
(absent from src/), per spec sections 4.1 and 3: required fields id, day,
description must be present or parsing fails with a validation error naming
the missing field; `description`/`descriptionShort` map to subject with the
first non-empty winning; `householdMembers` maps to attendees;
`itemDetails.location`, `itemDetails.notes`, `itemDetails.dateSpan` map to
location, notes, date_span with defaults absent, absent, 0; all other fields
are ignored silently. -/
def from_api_format (j : Json) : Except CoziError CoziAppointment :=
  match firstMissing j with
  | some f => .error (.validationError f)
  | none =>
    match getReqStr j "id", getReqStr j "day", getReqStr j "description" with
    | .ok i, .ok dayStr, .ok desc =>
      match parseDate dayStr with
      | .error e => .error e
      | .ok day =>
        match getOptTime j "startTime", getOptTime j "endTime" with
        | .ok st, .ok et =>
          .ok { id := some i
                subject := if desc = "" then jStrD j "descriptionShort" else desc
                start_day := day
                start_time := st
                end_time := et
                date_span := detailSpan j
                attendees := jStrList j "householdMembers"
                location := detailStr j "location"
                notes := detailStr j "notes" }
        | .error e, _ => .error e
        | _, .error e => .error e
    | .error e, _, _ => .error e
    | _, .error e, _ => .error e
    | _, _, .error e => .error e

/-- Zero-pad a natural number to at least the given width. -/
def padNat (width : Nat) (n : Nat) : String :=
  let s := toString n
  String.mk (List.replicate (width - s.length) '0') ++ s

/-- Render a date back to the wire `"YYYY-MM-DD"` form. -/
def formatDate (d : CoziDate) : String :=
  padNat 4 d.year ++ "-" ++ padNat 2 d.month ++ "-" ++ padNat 2 d.day

/-- Render a time of day back to the wire `"HH:MM[:SS]"` form, with the
seconds component omitted when zero. -/
def formatTime (t : CoziTime) : String :=
  padNat 2 t.hour ++ ":" ++ padNat 2 t.minute ++
    (if t.second = 0 then "" else ":" ++ padNat 2 t.second)

/-- The optional wire field for a nullable time of day: omitted when the
model has no time. -/
def timeField (name : String) (t : Option CoziTime) : List (String × Json) :=
  match t with
  | some tv => [(name, .str (formatTime tv))]
  | none => []

/-- The optional `itemDetails` entry for a nullable string. -/
def detailField (name : String) (v : Option String) : List (String × Json) :=
  match v with
  | some s => [(name, .str s)]
  | none => []

/-- The wire fields shared by the create and edit payloads of an
appointment, under the fixed wire-name translation table of spec
section 4.1. -/
def apptCommonFields (a : CoziAppointment) : List (String × Json) :=
  [("day", Json.str (formatDate a.start_day)),
   ("description", Json.str a.subject)]
  ++ timeField "startTime" a.start_time
  ++ timeField "endTime" a.end_time
  ++ [("householdMembers", Json.arr (a.attendees.map Json.str)),
      ("itemDetails", Json.obj (detailField "location" a.location
        ++ detailField "notes" a.notes
        ++ [("dateSpan", Json.num a.date_span)]))]

/-- Modelled from the spec: `CoziAppointment.to_api_create_format` of
`models.py` (absent from src/), per spec section 4.2: the minimal create
payload, which must omit the id. -/
def to_api_create_format (a : CoziAppointment) : Json :=
  .obj (apptCommonFields a)

/-- The JSON value for a nullable id. -/
def jsonOfOptStr : Option String → Json
  | some s => .str s
  | none => .null

/-- Modelled from the spec: `CoziAppointment.to_api_edit_format` of
`models.py` (absent from src/), per spec section 4.2: the update payload,
which must include the entity id. -/
def to_api_edit_format (a : CoziAppointment) : Json :=
  .obj (("id", jsonOfOptStr a.id) :: apptCommonFields a)

/-- An HTTP response as seen by the client wrapper: status code and raw
body. -/
structure HttpResponse where
  status : Nat
  body : String
deriving DecidableEq, Repr

/-- The outcome of issuing one HTTP request: either a response arrived, or
the transport failed (timeout, DNS, connection reset) with a reason. -/
inductive TransportOutcome where
  | response (r : HttpResponse)
  | failure (reason : String)
deriving DecidableEq, Repr

/-- A 2xx (success) HTTP status. -/
def is2xx (status : Nat) : Prop := 200 ≤ status ∧ status < 300

instance (status : Nat) : Decidable (is2xx status) := by
  unfold is2xx; infer_instance

/-- Modelled from the spec: the response classification shared by every
resource operation of `cozi_client.py` (absent from src/), per spec
sections 4.2 and 7: a non-2xx response raises an API error carrying the
original status and raw body; a transport failure raises a network error. -/
def classifyOutcome (o : TransportOutcome) : Except CoziError HttpResponse :=
  match o with
  | .failure reason => .error (.networkError reason)
  | .response r =>
    if is2xx r.status then .ok r
    else .error (.apiError r.status r.body)

/-- The mutable session state the client owns: the session token, if any. -/
structure ClientState where
  sessionToken : Option String
deriving DecidableEq, Repr

/-- The outcome of the login request: a response with a status and parsed
JSON body, or a transport failure. -/
inductive LoginOutcome where
  | response (status : Nat) (body : Json)
  | failure (reason : String)

/-- Modelled from the spec: `CoziClient.authenticate` of `cozi_client.py`
(absent from src/), per spec section 4.2: on a non-success HTTP status or a
missing auth token in the login response it fails with an authentication
error, and only on success does it store the session token for reuse; the
result pairs the post-call session state with the outcome. -/
def authenticate (st : ClientState) (o : LoginOutcome) :
    ClientState × Except CoziError String :=
  match o with
  | .failure reason => (st, .error (.networkError reason))
  | .response status body =>
    if is2xx status then
      match jLookup body "authToken" with
      | some (.str tok) => (⟨some tok⟩, .ok tok)
      | _ => (st, .error .authenticationError)
    else (st, .error .authenticationError)

/-- An invalid-credentials login response: non-success HTTP status, or no
auth token string in the response body. -/
def invalidLogin (status : Nat) (body : Json) : Prop :=
  ¬ is2xx status ∨ ∀ t, jLookup body "authToken" ≠ some (.str t)

/-- The names `src/__init__.py` lists in `__all__` (lines 27-40). -/
def initAllExports : List String :=
  ["CoziClient", "ListType", "ItemStatus", "CoziList", "CoziItem",
   "CoziAppointment", "CoziPerson", "CoziException", "AuthenticationError",
   "RateLimitError", "APIError", "ValidationError"]

/-- The names `src/__init__.py` imports from the exceptions module
(lines 18-24). -/
def initExceptionImports : List String :=
  ["CoziException", "AuthenticationError", "RateLimitError", "APIError",
   "ValidationError"]

/-- The names `src/test_calendar_operations.py` imports from the exceptions
module (lines 25-30). -/
def calendarScriptExceptionImports : List String :=
  ["AuthenticationError", "APIError", "ValidationError", "NetworkError"]

/-- Modelled from the spec: the error taxonomy of spec section 7, as a list
of exception type names, for comparison with the package root's surface. -/
def specErrorTaxonomy : List String :=
  ["AuthenticationError", "ValidationError", "APIError", "NetworkError"]

/-- Python values, as passed around by the demonstration script's helper
functions: None, strings, integers, dicts and lists. -/
inductive PyVal where
  | none
  | str (s : String)
  | int (n : Int)
  | dict (fields : List (String × PyVal))
  | list (xs : List PyVal)

/-- Python exceptions the embedded helper can raise. -/
inductive PyErr where
  | attributeError
  | typeError
  | keyError
deriving DecidableEq, Repr

/-- Python truthiness of the embedded values: None, empty strings, zero and
empty containers are falsy. -/
def pyTruthy : PyVal → Bool
  | .none => false
  | .str s => s ≠ ""
  | .int n => n ≠ 0
  | .dict fields => !fields.isEmpty
  | .list xs => !xs.isEmpty

/-- Python `==` between a value and a string: only equal strings compare
equal; values of other types are unequal, never an error. -/
def pyEqStr (v : PyVal) (s : String) : Bool :=
  match v with
  | .str t => t == s
  | _ => false

/-- Substring test, the semantics of Python's `in` on strings. -/
def strContains (s pat : String) : Bool :=
  pat == "" || (s.splitOn pat).length > 1

/-- Python `key in value`: key membership for dicts, element equality for
lists, substring test for strings; a TypeError on non-containers. -/
def pyIn (key : String) (v : PyVal) : Except PyErr Bool :=
  match v with
  | .dict fields => .ok (fields.any (fun p => p.1 == key))
  | .list xs => .ok (xs.any (fun x => pyEqStr x key))
  | .str s => .ok (strContains s key)
  | _ => .error .typeError

/-- Python `value[key]` with a string key: dict lookup (KeyError when
absent); a TypeError on any other type, lists included, since list indices
must be integers. -/
def pySubscript (v : PyVal) (key : String) : Except PyErr PyVal :=
  match v with
  | .dict fields =>
    match fields.lookup key with
    | some x => .ok x
    | Option.none => .error .keyError
  | _ => .error .typeError

/-- Python `value.get(key)`: dict lookup defaulting to None; an
AttributeError on any other type, lists included, since only dicts have a
`get` method. -/
def pyGet (v : PyVal) (key : String) : Except PyErr PyVal :=
  match v with
  | .dict fields => .ok ((fields.lookup key).getD .none)
  | _ => .error .attributeError

/-- Python `value.get(key, default)` on a dict. -/
def pyDictGetD (fields : List (String × PyVal)) (key : String) (dflt : PyVal) : PyVal :=
  (fields.lookup key).getD dflt

/-- Whether the value is a Python dict (`isinstance(v, dict)`). -/
def isDict : PyVal → Bool
  | .dict _ => true
  | _ => false

/-- `extract_appointment_from_response` of
`src/test_calendar_operations.py` (lines 119-138), embedded with Python
attribute and subscript semantics: an access that Python would reject
raises the corresponding exception. -/
def extract_appointment_from_response (response_data : PyVal)
    (appointment_id : String) : Except PyErr PyVal :=
  if ¬ (pyTruthy response_data ∧ appointment_id ≠ "") then .ok (.dict [])
  else do
    let hasItems ← pyIn "items" response_data
    let itemsIsDict ←
      if hasItems then do
        let items ← pySubscript response_data "items"
        pure (isDict items)
      else pure false
    if itemsIsDict then
      let items ← pySubscript response_data "items"
      match items with
      | .dict fields => pure (pyDictGetD fields appointment_id (.dict []))
      | _ => .error .typeError
    else do
      let idVal ← pyGet response_data "id"
      if pyEqStr idVal appointment_id then
        pure response_data
      else
        match response_data with
        | .list xs =>
          pure ((xs.find? (fun item =>
            isDict item &&
              (match item with
               | .dict fields => pyEqStr (pyDictGetD fields "id" .none) appointment_id
               | _ => false))).getD (.dict []))
        | _ => pure (.dict [])

/-- C9: the package root's surface (its exception imports and `__all__`)
includes RateLimitError, which the spec's error taxonomy never mentions, and
does not include NetworkError, even though NetworkError is the documented
transport-failure error type and the calendar demonstration script imports
it directly from the exceptions module. -/
theorem package_root_surface_rate_limit_no_network :
    "RateLimitError" ∈ initAllExports ∧
    "RateLimitError" ∈ initExceptionImports ∧
    "RateLimitError" ∉ specErrorTaxonomy ∧
    "NetworkError" ∉ initAllExports ∧
    "NetworkError" ∉ initExceptionImports ∧
    "NetworkError" ∈ specErrorTaxonomy ∧
    "NetworkError" ∈ calendarScriptExceptionImports := by
  decide

/-- C3: the create payload of an appointment never contains an `id` key,
and the edit payload always contains the entity's `id`. -/
theorem create_omits_id_edit_includes_id (a : CoziAppointment) :
    jLookup (to_api_create_format a) "id" = none ∧
    jLookup (to_api_edit_format a) "id" = some (jsonOfOptStr a.id) := by
  obtain ⟨i, subj, d, st, et, span, att, loc, notes⟩ := a
  cases st <;> cases et <;> exact ⟨rfl, rfl⟩

/-- C4: a non-2xx HTTP response makes a resource operation fail with an
APIError carrying the original status code and raw body, while a transport
failure fails with a NetworkError, and the two error forms are distinct. -/
theorem classifyOutcome_api_vs_network (r : HttpResponse) (reason : String)
    (h : ¬ is2xx r.status) :
    classifyOutcome (.response r) = .error (.apiError r.status r.body) ∧
    classifyOutcome (.failure reason) = .error (.networkError reason) ∧
    CoziError.apiError r.status r.body ≠ CoziError.networkError reason := by
  refine ⟨?_, rfl, by simp⟩
  simp [classifyOutcome, h]

/-- Witness for C4 at status 404 and a timeout failure. -/
theorem classifyOutcome_api_vs_network_witness :
    ¬ is2xx 404 ∧
    (classifyOutcome (.response ⟨404, "not found"⟩) =
        .error (.apiError 404 "not found") ∧
      classifyOutcome (.failure "timeout") = .error (.networkError "timeout") ∧
      CoziError.apiError 404 "not found" ≠ CoziError.networkError "timeout") :=
  ⟨by decide, classifyOutcome_api_vs_network ⟨404, "not found"⟩ "timeout" (by decide)⟩

/-- C5: authenticating against an invalid-credentials login response (a
non-success status or a response without an auth token) fails with an
AuthenticationError and leaves the client's session state unchanged, so no
session token is retained. -/
theorem authenticate_invalid_credentials (st : ClientState) (status : Nat)
    (body : Json) (h : invalidLogin status body) :
    authenticate st (.response status body) = (st, .error .authenticationError) ∧
    (authenticate st (.response status body)).1.sessionToken = st.sessionToken := by
  have hmain : authenticate st (.response status body) =
      (st, .error .authenticationError) := by
    by_cases hs : is2xx status
    · rcases h with h1 | h2
      · exact absurd hs h1
      · cases hjl : jLookup body "authToken" with
        | none => simp [authenticate, hs, hjl]
        | some v =>
          cases v
          all_goals first
          | exact absurd hjl (h2 _)
          | simp [authenticate, hs, hjl]
    · simp [authenticate, hs]
  exact ⟨hmain, by rw [hmain]⟩

/-- Witness for C5: a 401 login response leaves a fresh client with no
session token. -/
theorem authenticate_invalid_credentials_witness :
    invalidLogin 401 (Json.obj []) ∧
    (authenticate ⟨Option.none⟩ (.response 401 (Json.obj [])) =
        (⟨Option.none⟩, .error .authenticationError) ∧
      (authenticate ⟨Option.none⟩ (.response 401 (Json.obj []))).1.sessionToken =
        (⟨Option.none⟩ : ClientState).sessionToken) :=
  ⟨Or.inl (by decide),
    authenticate_invalid_credentials ⟨Option.none⟩ 401 (Json.obj [])
      (Or.inl (by decide))⟩

/-- Python `==` against a string holds exactly on the equal string value. -/
theorem pyEqStr_eq_true_iff (x : PyVal) (s : String) :
    pyEqStr x s = true ↔ x = .str s := by
  cases x <;> simp [pyEqStr]

/-- C10: on a non-empty list response that does not contain the string
'items' as an element, with a non-empty appointment id,
`extract_appointment_from_response` raises AttributeError at the
`response_data.get` dict access, so the list-search branch never returns a
matching appointment. -/
theorem extract_appointment_list_attribute_error (xs : List PyVal)
    (appointment_id : String) (hne : xs ≠ []) (haid : appointment_id ≠ "")
    (hni : PyVal.str "items" ∉ xs) :
    extract_appointment_from_response (.list xs) appointment_id =
      .error .attributeError := by
  have hany : xs.any (fun x => pyEqStr x "items") = false := by
    rw [List.any_eq_false]
    intro x hx hpx
    exact hni ((pyEqStr_eq_true_iff x "items").mp hpx ▸ hx)
  have htr : pyTruthy (.list xs) = true := by
    simp [pyTruthy]
    exact hne
  simp [extract_appointment_from_response, htr, haid, pyIn, hany, pyGet,
    Bind.bind, Except.bind, Pure.pure, Except.pure]

/-- Witness for C10: a singleton list holding the very appointment being
searched for still raises AttributeError instead of returning it. -/
theorem extract_appointment_list_attribute_error_witness :
    ([PyVal.dict [("id", PyVal.str "A1")]] : List PyVal) ≠ [] ∧
    ("A1" : String) ≠ "" ∧
    PyVal.str "items" ∉ ([PyVal.dict [("id", PyVal.str "A1")]] : List PyVal) ∧
    extract_appointment_from_response
      (.list [PyVal.dict [("id", PyVal.str "A1")]]) "A1" =
        .error .attributeError :=
  ⟨by simp, by decide, by simp,
    extract_appointment_list_attribute_error _ "A1" (by simp) (by decide)
      (by simp)⟩

/-- Computation of a successful appointment parse: with the required fields
present as strings, a well-formed day and well-formed optional times, the
parse succeeds with the mapped fields. -/
theorem from_api_format_ok (j : Json) (i d s : String) (dt : CoziDate)
    (ost oet : Option CoziTime)
    (hid : jLookup j "id" = some (.str i))
    (hday : jLookup j "day" = some (.str d))
    (hdesc : jLookup j "description" = some (.str s))
    (hd : parseDate d = .ok dt)
    (hst : getOptTime j "startTime" = .ok ost)
    (het : getOptTime j "endTime" = .ok oet) :
    from_api_format j = .ok
      { id := some i
        subject := if s = "" then jStrD j "descriptionShort" else s
        start_day := dt
        start_time := ost
        end_time := oet
        date_span := detailSpan j
        attendees := jStrList j "householdMembers"
        location := detailStr j "location"
        notes := detailStr j "notes" } := by
  have hfm : firstMissing j = none := by
    simp [firstMissing, requiredFields, List.find?, hid, hday, hdesc]
  simp [from_api_format, hfm, getReqStr, hid, hday, hdesc, hd, hst, het]

/-- C1: an appointment JSON object missing one of the required fields id,
day or description never parses successfully with a substituted default:
`from_api_format` fails with a ValidationError naming a missing required
field, and when the missing field is unique it names exactly that field. -/
theorem from_api_format_missing_required_fails (j : Json) (f : String)
    (hf : f ∈ requiredFields) (hmiss : jLookup j f = none) :
    (∃ g, g ∈ requiredFields ∧ jLookup j g = none ∧
      from_api_format j = .error (.validationError g)) ∧
    ((∀ g, g ∈ requiredFields → jLookup j g = none → g = f) →
      from_api_format j = .error (.validationError f)) := by
  have hsome : ∃ g, firstMissing j = some g := by
    cases h : firstMissing j with
    | some g => exact ⟨g, rfl⟩
    | none =>
      exfalso
      have hnone := List.find?_eq_none.mp h f hf
      simp [hmiss] at hnone
  obtain ⟨g, hg⟩ := hsome
  have hgm : g ∈ requiredFields := List.mem_of_find?_eq_some hg
  have hgp := List.find?_some hg
  have hgn : jLookup j g = none := by
    cases hh : jLookup j g
    · rfl
    · rw [hh] at hgp; simp at hgp
  have hval : from_api_format j = .error (.validationError g) := by
    simp [from_api_format, hg]
  refine ⟨⟨g, hgm, hgn, hval⟩, fun huniq => ?_⟩
  rw [huniq g hgm hgn] at hval
  exact hval

/-- Witness for C1: JSON carrying id and description but no day fails with
a ValidationError naming `day`. -/
theorem from_api_format_missing_required_fails_witness :
    ("day" : String) ∈ requiredFields ∧
    jLookup (Json.obj [("id", Json.str "appt-1"),
      ("description", Json.str "Dentist")]) "day" = none ∧
    from_api_format (Json.obj [("id", Json.str "appt-1"),
      ("description", Json.str "Dentist")]) = .error (.validationError "day") :=
  ⟨by decide, rfl,
    (from_api_format_missing_required_fails
      (Json.obj [("id", Json.str "appt-1"), ("description", Json.str "Dentist")])
      "day" (by decide) rfl).2
      (by intro g hgr hgn
          simp [requiredFields] at hgr
          rcases hgr with h | h | h
          · subst h; simp [jLookup] at hgn
          · exact h
          · subst h; simp [jLookup] at hgn)⟩

/-- C6: with the required fields present and times well formed, parsing
succeeds even though location, notes and dateSpan are missing, and applies
the documented defaults: location absent, notes absent, date_span 0. -/
theorem from_api_format_optional_defaults (j : Json) (i d s : String)
    (dt : CoziDate)
    (hid : jLookup j "id" = some (.str i))
    (hday : jLookup j "day" = some (.str d))
    (hdesc : jLookup j "description" = some (.str s))
    (hd : parseDate d = .ok dt)
    (hst : ∃ ost, getOptTime j "startTime" = .ok ost)
    (het : ∃ oet, getOptTime j "endTime" = .ok oet)
    (hloc : (details j).lookup "location" = none)
    (hnotes : (details j).lookup "notes" = none)
    (hspan : (details j).lookup "dateSpan" = none) :
    ∃ a, from_api_format j = .ok a ∧
      a.location = none ∧ a.notes = none ∧ a.date_span = 0 := by
  obtain ⟨ost, hst⟩ := hst
  obtain ⟨oet, het⟩ := het
  refine ⟨_, from_api_format_ok j i d s dt ost oet hid hday hdesc hd hst het,
    ?_, ?_, ?_⟩
  · simp [detailStr, hloc]
  · simp [detailStr, hnotes]
  · simp [detailSpan, hspan]

/-- Witness for C6: required fields only, no itemDetails at all. -/
theorem from_api_format_optional_defaults_witness :
    jLookup (Json.obj [("id", Json.str "appt-1"), ("day", Json.str "2025-10-12"),
      ("description", Json.str "Dentist")]) "id" = some (.str "appt-1") ∧
    parseDate "2025-10-12" = .ok ⟨2025, 10, 12⟩ ∧
    (∃ a, from_api_format (Json.obj [("id", Json.str "appt-1"),
        ("day", Json.str "2025-10-12"), ("description", Json.str "Dentist")]) =
          .ok a ∧
      a.location = none ∧ a.notes = none ∧ a.date_span = 0) :=
  ⟨rfl, rfl,
    from_api_format_optional_defaults _ "appt-1" "2025-10-12" "Dentist"
      ⟨2025, 10, 12⟩ rfl rfl rfl rfl ⟨none, rfl⟩ ⟨none, rfl⟩ rfl rfl rfl⟩

/-- C7: the subject is the first non-empty of `description` and
`descriptionShort`, with a non-empty `description` taking precedence. -/
theorem from_api_format_subject_first_nonempty (j : Json) (i d s : String)
    (dt : CoziDate)
    (hid : jLookup j "id" = some (.str i))
    (hday : jLookup j "day" = some (.str d))
    (hdesc : jLookup j "description" = some (.str s))
    (hd : parseDate d = .ok dt)
    (hst : ∃ ost, getOptTime j "startTime" = .ok ost)
    (het : ∃ oet, getOptTime j "endTime" = .ok oet) :
    ∃ a, from_api_format j = .ok a ∧
      (s ≠ "" → a.subject = s) ∧
      (s = "" → a.subject = jStrD j "descriptionShort") := by
  obtain ⟨ost, hst⟩ := hst
  obtain ⟨oet, het⟩ := het
  refine ⟨_, from_api_format_ok j i d s dt ost oet hid hday hdesc hd hst het,
    fun h => ?_, fun h => ?_⟩
  · simp [h]
  · simp [h]

/-- Witness for C7: an empty `description` falls back to
`descriptionShort`. -/
theorem from_api_format_subject_first_nonempty_witness :
    jLookup (Json.obj [("id", Json.str "appt-1"), ("day", Json.str "2025-10-12"),
      ("description", Json.str ""), ("descriptionShort", Json.str "Plan")])
        "description" = some (.str "") ∧
    (∃ a, from_api_format (Json.obj [("id", Json.str "appt-1"),
        ("day", Json.str "2025-10-12"), ("description", Json.str ""),
        ("descriptionShort", Json.str "Plan")]) = .ok a ∧
      (("" : String) ≠ "" → a.subject = "") ∧
      (("" : String) = "" → a.subject = jStrD (Json.obj [("id", Json.str "appt-1"),
        ("day", Json.str "2025-10-12"), ("description", Json.str ""),
        ("descriptionShort", Json.str "Plan")]) "descriptionShort")) :=
  ⟨rfl,
    from_api_format_subject_first_nonempty _ "appt-1" "2025-10-12" ""
      ⟨2025, 10, 12⟩ rfl rfl rfl rfl ⟨none, rfl⟩ ⟨none, rfl⟩⟩

/-- Mapping strings into JSON and back through the tolerant string-array
read is the identity. -/
theorem filterMap_str_map (ys : List String) :
    (ys.map Json.str).filterMap
      (fun x => match x with | .str s => some s | _ => none) = ys := by
  induction ys with
  | nil => rfl
  | cons y ys ih => simp [List.filterMap_cons, ih]

/-- C8: a `householdMembers` array of identifiers maps to the attendees
field preserving the server's order, and a duplicate-free array yields an
ordered set of attendee identifiers. -/
theorem from_api_format_attendees_order (j : Json) (i d s : String)
    (dt : CoziDate) (ys : List String)
    (hid : jLookup j "id" = some (.str i))
    (hday : jLookup j "day" = some (.str d))
    (hdesc : jLookup j "description" = some (.str s))
    (hd : parseDate d = .ok dt)
    (hst : ∃ ost, getOptTime j "startTime" = .ok ost)
    (het : ∃ oet, getOptTime j "endTime" = .ok oet)
    (hmem : jLookup j "householdMembers" = some (.arr (ys.map Json.str)))
    (hnd : ys.Nodup) :
    ∃ a, from_api_format j = .ok a ∧ a.attendees = ys ∧ a.attendees.Nodup := by
  obtain ⟨ost, hst⟩ := hst
  obtain ⟨oet, het⟩ := het
  have hatt : jStrList j "householdMembers" = ys := by
    simp only [jStrList, hmem]
    exact filterMap_str_map ys
  refine ⟨_, from_api_format_ok j i d s dt ost oet hid hday hdesc hd hst het,
    ?_, ?_⟩
  · exact hatt
  · simpa [hatt] using hnd

/-- Witness for C8: two attendees come back in server order. -/
theorem from_api_format_attendees_order_witness :
    jLookup (Json.obj [("id", Json.str "appt-1"), ("day", Json.str "2025-10-12"),
      ("description", Json.str "Dinner"),
      ("householdMembers", Json.arr [Json.str "p1", Json.str "p2"])])
        "householdMembers" = some (.arr (["p1", "p2"].map Json.str)) ∧
    (["p1", "p2"] : List String).Nodup ∧
    (∃ a, from_api_format (Json.obj [("id", Json.str "appt-1"),
        ("day", Json.str "2025-10-12"), ("description", Json.str "Dinner"),
        ("householdMembers", Json.arr [Json.str "p1", Json.str "p2"])]) = .ok a ∧
      a.attendees = ["p1", "p2"] ∧ a.attendees.Nodup) :=
  ⟨rfl, by decide,
    from_api_format_attendees_order _ "appt-1" "2025-10-12" "Dinner"
      ⟨2025, 10, 12⟩ ["p1", "p2"] rfl rfl rfl rfl ⟨none, rfl⟩ ⟨none, rfl⟩ rfl
      (by decide)⟩

/-- A time field of the input JSON in canonical wire form: either absent,
or a string that parses to a time which renders back to the same string. -/
def optCanonTime (j : Json) (f : String) : Prop :=
  jLookup j f = none ∨
    ∃ s t, jLookup j f = some (.str s) ∧ parseTime f s = .ok t ∧
      formatTime t = s

/-- C2: for valid appointment JSON with the required fields present (and a
non-empty description and canonical time fields), `from_api_format`
followed by `to_api_edit_format` round-trips the id, subject (carried by
the wire `description` field) and start/end time fields of the input. -/
theorem from_api_format_edit_roundtrip (j : Json) (i d s : String)
    (dt : CoziDate)
    (hid : jLookup j "id" = some (.str i))
    (hday : jLookup j "day" = some (.str d))
    (hdesc : jLookup j "description" = some (.str s))
    (hd : parseDate d = .ok dt)
    (hs : s ≠ "")
    (hst : optCanonTime j "startTime")
    (het : optCanonTime j "endTime") :
    ∃ a, from_api_format j = .ok a ∧
      jLookup (to_api_edit_format a) "id" = jLookup j "id" ∧
      jLookup (to_api_edit_format a) "description" = jLookup j "description" ∧
      jLookup (to_api_edit_format a) "startTime" = jLookup j "startTime" ∧
      jLookup (to_api_edit_format a) "endTime" = jLookup j "endTime" := by
  rcases hst with hstn | ⟨ss, stt, hsl, hsp, hsf⟩
  · rcases het with hetn | ⟨es, ett, hel, hep, hef⟩
    · refine ⟨_, from_api_format_ok j i d s dt none none hid hday hdesc hd
        (by simp [getOptTime, hstn]) (by simp [getOptTime, hetn]),
        ?_, ?_, ?_, ?_⟩
      · rw [hid]
        simp [to_api_edit_format, apptCommonFields, timeField, jsonOfOptStr,
          jLookup, List.lookup]
      · rw [hdesc]
        simp [to_api_edit_format, apptCommonFields, timeField, jsonOfOptStr,
          jLookup, List.lookup, hs]
      · rw [hstn]
        simp [to_api_edit_format, apptCommonFields, timeField, jsonOfOptStr,
          jLookup, List.lookup]
      · rw [hetn]
        simp [to_api_edit_format, apptCommonFields, timeField, jsonOfOptStr,
          jLookup, List.lookup]
    · refine ⟨_, from_api_format_ok j i d s dt none (some ett) hid hday hdesc hd
        (by simp [getOptTime, hstn]) (by simp [getOptTime, hel, hep]),
        ?_, ?_, ?_, ?_⟩
      · rw [hid]
        simp [to_api_edit_format, apptCommonFields, timeField, jsonOfOptStr,
          jLookup, List.lookup]
      · rw [hdesc]
        simp [to_api_edit_format, apptCommonFields, timeField, jsonOfOptStr,
          jLookup, List.lookup, hs]
      · rw [hstn]
        simp [to_api_edit_format, apptCommonFields, timeField, jsonOfOptStr,
          jLookup, List.lookup]
      · rw [hel]
        simp [to_api_edit_format, apptCommonFields, timeField, jsonOfOptStr,
          jLookup, List.lookup, hef]
  · rcases het with hetn | ⟨es, ett, hel, hep, hef⟩
    · refine ⟨_, from_api_format_ok j i d s dt (some stt) none hid hday hdesc hd
        (by simp [getOptTime, hsl, hsp]) (by simp [getOptTime, hetn]),
        ?_, ?_, ?_, ?_⟩
      · rw [hid]
        simp [to_api_edit_format, apptCommonFields, timeField, jsonOfOptStr,
          jLookup, List.lookup]
      · rw [hdesc]
        simp [to_api_edit_format, apptCommonFields, timeField, jsonOfOptStr,
          jLookup, List.lookup, hs]
      · rw [hsl]
        simp [to_api_edit_format, apptCommonFields, timeField, jsonOfOptStr,
          jLookup, List.lookup, hsf]
      · rw [hetn]
        simp [to_api_edit_format, apptCommonFields, timeField, jsonOfOptStr,
          jLookup, List.lookup]
    · refine ⟨_, from_api_format_ok j i d s dt (some stt) (some ett) hid hday
        hdesc hd (by simp [getOptTime, hsl, hsp]) (by simp [getOptTime, hel, hep]),
        ?_, ?_, ?_, ?_⟩
      · rw [hid]
        simp [to_api_edit_format, apptCommonFields, timeField, jsonOfOptStr,
          jLookup, List.lookup]
      · rw [hdesc]
        simp [to_api_edit_format, apptCommonFields, timeField, jsonOfOptStr,
          jLookup, List.lookup, hs]
      · rw [hsl]
        simp [to_api_edit_format, apptCommonFields, timeField, jsonOfOptStr,
          jLookup, List.lookup, hsf]
      · rw [hel]
        simp [to_api_edit_format, apptCommonFields, timeField, jsonOfOptStr,
          jLookup, List.lookup, hef]

/-- Witness for C2: an appointment at 14:00 with id, day and description
present round-trips its id, description and time fields. -/
theorem from_api_format_edit_roundtrip_witness :
    ("Meet" : String) ≠ "" ∧
    optCanonTime (Json.obj [("id", Json.str "appt-1"),
      ("day", Json.str "2025-10-12"), ("description", Json.str "Meet"),
      ("startTime", Json.str "14:00")]) "startTime" ∧
    (∃ a, from_api_format (Json.obj [("id", Json.str "appt-1"),
        ("day", Json.str "2025-10-12"), ("description", Json.str "Meet"),
        ("startTime", Json.str "14:00")]) = .ok a ∧
      jLookup (to_api_edit_format a) "id" =
        jLookup (Json.obj [("id", Json.str "appt-1"),
          ("day", Json.str "2025-10-12"), ("description", Json.str "Meet"),
          ("startTime", Json.str "14:00")]) "id" ∧
      jLookup (to_api_edit_format a) "description" =
        jLookup (Json.obj [("id", Json.str "appt-1"),
          ("day", Json.str "2025-10-12"), ("description", Json.str "Meet"),
          ("startTime", Json.str "14:00")]) "description" ∧
      jLookup (to_api_edit_format a) "startTime" =
        jLookup (Json.obj [("id", Json.str "appt-1"),
          ("day", Json.str "2025-10-12"), ("description", Json.str "Meet"),
          ("startTime", Json.str "14:00")]) "startTime" ∧
      jLookup (to_api_edit_format a) "endTime" =
        jLookup (Json.obj [("id", Json.str "appt-1"),
          ("day", Json.str "2025-10-12"), ("description", Json.str "Meet"),
          ("startTime", Json.str "14:00")]) "endTime") :=
  ⟨by decide, Or.inr ⟨"14:00", ⟨14, 0, 0⟩, rfl, rfl, rfl⟩,
    from_api_format_edit_roundtrip _ "appt-1" "2025-10-12" "Meet"
      ⟨2025, 10, 12⟩ rfl rfl rfl rfl (by decide)
      (Or.inr ⟨"14:00", ⟨14, 0, 0⟩, rfl, rfl, rfl⟩) (Or.inl rfl)⟩
